import Mathlib

/-!
Verification development for the unibo-toolkit timetable aggregation engine.

The Python sources under `src/unibo_toolkit` are shallowly embedded as
executable Lean definitions:

* `utils/date_utils.py`   → `get_academic_year_range`, `get_api_date_range`,
  `format_date_for_api`, `parse_api_datetime`
* `models/timetable.py`   → `TimetableEvent`, `extract_group_id`, `Timetable`,
  `CurriculumTimetable`, `AcademicYearTimetable`, `TimetableCollection`
* `utils/timetable_parser.py` → `parse_classroom`, `parse_event`,
  `parse_events`, `validate_response` (the content hash uses a full SHA-256
  model of `hashlib.sha256(...).hexdigest()[:16]`)
* `utils/timetable_filters.py` → `filter_events` helpers, `group_events_by_group`
* `scrapers/timetable.py` → `fetch_timetable`, `get_curriculum_timetable`,
  `get_timetables`; the HTTP transport plus `json.loads` are abstracted as an
  environment mapping a request (URL and query parameters) to a transport
  failure or a parsed JSON payload.

Python's `datetime` values are modelled by the `DateTime` structure below;
numeric JSON values that the code only stores (geo coordinates) are modelled
as integers.  Exceptions are modelled with `Except PyError`.
-/

namespace UniboToolkit

/-- Python exception kinds that the embedded code can raise. -/
inductive PyError where
  | valueError
  | attributeError
  | keyError
deriving DecidableEq

/-- Model of `datetime.datetime` (second granularity; the code never produces
microseconds on the paths modelled here). -/
structure DateTime where
  year : Int
  month : Nat
  day : Nat
  hour : Nat
  minute : Nat
  second : Nat
deriving DecidableEq

/-- Key used to compare datetimes; strictly monotone with respect to the
field-lexicographic order on calendar-valid datetimes (month ≤ 12, day ≤ 31,
hour < 24, minute < 60, second < 60), which is the only domain Python's
`datetime` constructor admits. -/
def DateTime.toKeyInt (d : DateTime) : Int :=
  ((((d.year * 13 + (d.month : Int)) * 32 + (d.day : Int)) * 24 + (d.hour : Int)) * 60
      + (d.minute : Int)) * 60 + (d.second : Int)

/-- Boolean prefix test on character lists. -/
def isPrefixL : List Char → List Char → Bool
  | [], _ => true
  | _ :: _, [] => false
  | p :: ps, c :: cs => p == c && isPrefixL ps cs

/-- Worker for `pySplit`: scan left to right, splitting at each
(non-overlapping) occurrence of the separator.  The fuel argument makes the
recursion structural; it is called with more fuel than characters, and each
step consumes at least one character for a non-empty separator, so the fuel
never runs out. -/
def splitLoop (sep : List Char) : Nat → List Char → List Char → List (List Char)
  | 0, _, acc => [acc.reverse]
  | _ + 1, [], acc => [acc.reverse]
  | fuel + 1, c :: rest, acc =>
    if isPrefixL sep (c :: rest) then
      acc.reverse :: splitLoop sep fuel ((c :: rest).drop sep.length) []
    else
      splitLoop sep fuel rest (c :: acc)

/-- Python `s.split(sep)` for a non-empty separator: left-to-right,
non-overlapping occurrences; always returns at least one part. -/
def pySplit (s sep : String) : List String :=
  (splitLoop sep.data (s.data.length + 1) s.data []).map String.mk

/-- Python `s.strip()`: remove leading and trailing whitespace. -/
def pyStrip (s : String) : String :=
  String.mk ((s.data.dropWhile Char.isWhitespace).reverse.dropWhile
    Char.isWhitespace).reverse

/-- Python `s.endswith(suffix)`. -/
def pyEndsWith (s suffix : String) : Bool :=
  isPrefixL suffix.data.reverse s.data.reverse

/-- Drop the last `n` characters of a string. -/
def pyDropRight (s : String) (n : Nat) : String :=
  String.mk (s.data.take (s.data.length - n))

/-- Parse a non-empty all-digit string as a natural number. -/
def digitsToNat? (s : String) : Option Nat :=
  if s.data ≠ [] ∧ s.data.all Char.isDigit then
    some (s.data.foldl (fun n c => n * 10 + (c.toNat - 48)) 0)
  else none

/-- Python `int(s)` on an optionally signed decimal string (surrounding
whitespace stripped as `int` does); `none` models the `ValueError` the
caller swallows. -/
def pyToInt? (s : String) : Option Int :=
  match (pyStrip s).data with
  | '-' :: ds => (digitsToNat? (String.mk ds)).map (fun n => -(n : Int))
  | '+' :: ds => (digitsToNat? (String.mk ds)).map (fun n => (n : Int))
  | ds => (digitsToNat? (String.mk ds)).map (fun n => (n : Int))

/-- Zero-pad a natural number to two digits, as `%02d`. -/
def pad2 (n : Nat) : String :=
  if n < 10 then "0" ++ toString n else toString n

/-- Zero-pad a year to four digits, as `%04d` (years in this model are the
positive years `datetime` admits). -/
def pad4 (n : Int) : String :=
  let s := toString n
  if n < 10 then "000" ++ s
  else if n < 100 then "00" ++ s
  else if n < 1000 then "0" ++ s
  else s

/-- Model of `datetime.isoformat()` for microsecond-free values:
`YYYY-MM-DDTHH:MM:SS`. -/
def DateTime.isoformat (d : DateTime) : String :=
  pad4 d.year ++ "-" ++ pad2 d.month ++ "-" ++ pad2 d.day ++ "T" ++
    pad2 d.hour ++ ":" ++ pad2 d.minute ++ ":" ++ pad2 d.second

/-- `date_utils.format_date_for_api`: `date.strftime("%Y-%m-%d")`. -/
def format_date_for_api (date : DateTime) : String :=
  pad4 date.year ++ "-" ++ pad2 date.month ++ "-" ++ pad2 date.day

/-- Parse a `YYYY-MM-DD` calendar date, the date part of
`datetime.fromisoformat`.  Field ranges are validated as `datetime` does
(days are capped at 31; the per-month day count is not refined further, which
is immaterial to the claims). -/
def parseDateStr (s : String) : Option DateTime :=
  match pySplit s "-" with
  | [ys, ms, ds] =>
    if ys.length = 4 ∧ ms.length = 2 ∧ ds.length = 2 then
      match digitsToNat? ys, digitsToNat? ms, digitsToNat? ds with
      | some y, some m, some d =>
        if 1 ≤ y ∧ 1 ≤ m ∧ m ≤ 12 ∧ 1 ≤ d ∧ d ≤ 31 then
          some ⟨(y : Int), m, d, 0, 0, 0⟩
        else none
      | _, _, _ => none
    else none
  | _ => none

/-- Parse a `HH:MM:SS` time-of-day, the time part of `datetime.fromisoformat`
(the upstream API always carries full seconds). -/
def parseTimeStr (s : String) : Option (Nat × Nat × Nat) :=
  match pySplit s ":" with
  | [hs, ms, ss] =>
    if hs.length = 2 ∧ ms.length = 2 ∧ ss.length = 2 then
      match digitsToNat? hs, digitsToNat? ms, digitsToNat? ss with
      | some h, some mi, some se =>
        if h ≤ 23 ∧ mi ≤ 59 ∧ se ≤ 59 then some (h, mi, se) else none
      | _, _, _ => none
    else none
  | _ => none

/-- Model of `datetime.fromisoformat` on the grammar the upstream data uses:
a calendar date, optionally followed by `T` and a time of day. -/
def fromisoformat (s : String) : Option DateTime :=
  match pySplit s "T" with
  | [d] => parseDateStr d
  | [d, t] =>
    (parseDateStr d).bind fun dd =>
      (parseTimeStr t).map fun hms =>
        { dd with hour := hms.1, minute := hms.2.1, second := hms.2.2 }
  | _ => none

/-- `date_utils.parse_api_datetime`: strips a `+HH:MM` offset or a trailing
`Z` marker, then parses with `fromisoformat`.  (The `strptime` fallback in the
source parses the same `YYYY-MM-DDTHH:MM:SS` grammar, so it adds no further
successes.)  Failure raises `ValueError`. -/
def parse_api_datetime (date_str : String) : Except PyError DateTime :=
  let stripped :=
    if (pySplit date_str "+").length > 1 then (pySplit date_str "+").headD ""
    else if pyEndsWith date_str "Z" then pyDropRight date_str 1
    else date_str
  match fromisoformat stripped with
  | some d => .ok d
  | none => .error .valueError

/-- `date_utils.get_academic_year_range`.  The current date (used when
`reference_date` is `None`) is passed explicitly as `now`. -/
def get_academic_year_range (reference_date : Option DateTime) (extended : Bool)
    (now : DateTime) : DateTime × DateTime :=
  let ref := reference_date.getD now
  let current_month := ref.month
  let current_year := ref.year
  let se : Int × Int :=
    if current_month ≥ 9 then (current_year, current_year + 1)
    else (current_year - 1, current_year)
  let start_year := se.1
  let end_year := se.2
  let start_date : DateTime := ⟨start_year, 9, 1, 0, 0, 0⟩
  let end_date : DateTime := ⟨end_year, 7, 31, 23, 59, 59⟩
  if extended then
    (⟨start_year - 1, 9, 1, 0, 0, 0⟩, ⟨end_year + 1, 7, 31, 23, 59, 59⟩)
  else
    (start_date, end_date)

/-- `date_utils.get_api_date_range`.  Its first parameter `academic_year` is
declared but never used by the body; Python performs no type check on it, so
it is modelled with an arbitrary type. -/
def get_api_date_range {A : Type} (academic_year : A) (reference_date : Option DateTime)
    (extended : Bool) (now : DateTime) : String × String :=
  let r := get_academic_year_range reference_date extended now
  (format_date_for_api r.1, format_date_for_api r.2)

/-- `models/curriculum.py`: `Curriculum` dataclass (its `__eq__` compares
codes only; structural equality is used here and the claims speak of distinct
codes explicitly). -/
structure Curriculum where
  code : String
  label : String
  selected : Bool
deriving DecidableEq

/-- `models/timetable.py`: `Classroom` dataclass.  Geo coordinates are JSON
numbers the code merely stores; they are modelled as integers. -/
structure Classroom where
  title : String
  address : Option String := none
  additional_info : Option String := none
  latitude : Option Int := none
  longitude : Option Int := none
deriving DecidableEq

/-- `models/timetable.py`: `TimetableEvent` dataclass (the Python field `end`
is named `end_` because `end` is a Lean keyword). -/
structure TimetableEvent where
  title : String
  start : DateTime
  end_ : DateTime
  professor : Option String := none
  module_code : Option String := none
  credits : Option Int := none
  time_display : Option String := none
  teaching_period : Option String := none
  calendar_period : Option String := none
  classrooms : List Classroom := []
  is_remote : Bool := false
  teams_link : Option String := none
  notes : Option String := none
  group_id : Option String := none
  cod_sdoppiamento : Option String := none
deriving DecidableEq

/-- `re.search(r"[A-Z0-9]", s, re.IGNORECASE)` succeeds, i.e. `s` contains an
ASCII letter or digit. -/
def hasAlnumChar (s : String) : Bool :=
  s.data.any (fun c => c.isAlpha || c.isDigit)

/-- Matcher for the title pattern `\(CL\.([A-Z])\)` at the head of a
character list; returns the whole match (regex group 0). -/
def matchClPattern : List Char → Option String
  | '(' :: 'C' :: 'L' :: '.' :: x :: ')' :: _ =>
    if x.isUpper then some (String.mk ['(', 'C', 'L', '.', x, ')']) else none
  | _ => none

/-- Matcher for the title pattern `\(([A-Z])\)` at the head. -/
def matchSingleLetterPattern : List Char → Option String
  | '(' :: x :: ')' :: _ =>
    if x.isUpper then some (String.mk ['(', x, ')']) else none
  | _ => none

/-- Matcher for the title pattern `\(G\.([A-Z])\)` at the head. -/
def matchGPattern : List Char → Option String
  | '(' :: 'G' :: '.' :: x :: ')' :: _ =>
    if x.isUpper then some (String.mk ['(', 'G', '.', x, ')']) else none
  | _ => none

/-- Matcher for the title pattern `\(([A-Z]{2,3})\)` at the head.  The closing
parenthesis disambiguates, so trying two letters before three is equivalent to
the regex engine's greedy-with-backtracking order. -/
def matchTwoThreeLetterPattern : List Char → Option String
  | '(' :: a :: b :: ')' :: _ =>
    if a.isUpper && b.isUpper then some (String.mk ['(', a, b, ')']) else none
  | '(' :: a :: b :: c :: ')' :: _ =>
    if a.isUpper && b.isUpper && c.isUpper then
      some (String.mk ['(', a, b, c, ')'])
    else none
  | _ => none

/-- `re.search` for one pattern: try the matcher at each position, leftmost
match wins. -/
def searchPattern (m : List Char → Option String) : List Char → Option String
  | [] => none
  | c :: rest =>
    match m (c :: rest) with
    | some r => some r
    | none => searchPattern m rest

/-- Try an ordered list of patterns, first pattern that matches anywhere
wins (the `for pattern in patterns` loop). -/
def firstPatternMatch : List (List Char → Option String) → List Char → Option String
  | [], _ => none
  | p :: ps, cs =>
    match searchPattern p cs with
    | some r => some r
    | none => firstPatternMatch ps cs

/-- Python's `"..." .strip("()")`: drop leading and trailing parenthesis
characters. -/
def stripParens (s : String) : String :=
  String.mk ((s.data.dropWhile fun c => c == '(' || c == ')').reverse.dropWhile
      (fun c => c == '(' || c == ')')).reverse

/-- `TimetableEvent.extract_group_id` from `models/timetable.py`.

Method 1: if the raw code contains the separator `--`, take the trimmed text
after the last occurrence (`cod.split('--')[-1].strip()`), compare it against
the base module code (`cod.split('_')[0]`) and the length/content checks.
Method 2: otherwise scan the title with the four bracketed patterns. -/
def extract_group_id (cod_sdoppiamento : String) (title : String) : Option String :=
  if (pySplit cod_sdoppiamento "--").length > 1 then
    let suffix := pyStrip ((pySplit cod_sdoppiamento "--").getLastD "")
    let module_base := (pySplit cod_sdoppiamento "_").headD ""
    if suffix = module_base then none
    else if suffix.length > 10 ∨ suffix = "" then none
    else if ¬ hasAlnumChar suffix then none
    else some suffix
  else
    (firstPatternMatch
        [matchClPattern, matchSingleLetterPattern, matchGPattern,
          matchTwoThreeLetterPattern] title.data).map stripParens

/-- Wire shape of one classroom sub-record (`aule` entry).  The nested
`raw.edificio.geo.lat` and `raw.edificio.geo.lng` lookups of
`parse_classroom` are flattened into `geo_lat`, `geo_lng` (absent when
any level of the nesting is missing or empty). -/
structure RawAula where
  des_risorsa : Option String := none
  des_indirizzo : Option String := none
  des_piano : Option String := none
  geo_lat : Option Int := none
  geo_lng : Option Int := none
deriving DecidableEq

/-- Wire shape of one raw schedule record, with one `Option` field per JSON
key the decoder reads (`none` = key absent).  The Python field `end` is named
`end_`. -/
structure RawEvent where
  title : Option String := none
  start : Option String := none
  end_ : Option String := none
  docente : Option String := none
  cod_modulo : Option String := none
  cfu : Option String := none
  orario : Option String := none
  periodo : Option String := none
  calendarioperiodo : Option String := none
  aule : Option (List RawAula) := none
  teams : Option String := none
  note : Option String := none
  cod_sdoppiamento : Option String := none
deriving DecidableEq

/-- `TimetableParser.parse_classroom`. -/
def parse_classroom (aula_data : RawAula) : Classroom :=
  { title := aula_data.des_risorsa.getD ""
    address := aula_data.des_indirizzo
    additional_info := aula_data.des_piano
    latitude := aula_data.geo_lat
    longitude := aula_data.geo_lng }

/-- `TimetableParser.parse_event`.  `event_data["start"]` and
`event_data["end"]` raise `KeyError` when absent; unparseable timestamps
raise `ValueError` from `parse_api_datetime`.  The `cfu` coercion
(`int(...)` under `try/except`) yields `none` on failure, and `group_id` is
derived in `TimetableEvent.__post_init__` from a truthy `cod_sdoppiamento`. -/
def parse_event (event_data : RawEvent) : Except PyError TimetableEvent := do
  let startStr ← match event_data.start with
    | some s => Except.ok s
    | none => Except.error .keyError
  let endStr ← match event_data.end_ with
    | some s => Except.ok s
    | none => Except.error .keyError
  let start ← parse_api_datetime startStr
  let end_ ← parse_api_datetime endStr
  let classrooms := (event_data.aule.getD []).map parse_classroom
  let credits :=
    match event_data.cfu with
    | some s => if s ≠ "" then pyToInt? s else none
    | none => none
  let remote :=
    match event_data.teams with
    | some t => if t ≠ "" then (true, some t) else (false, none)
    | none => (false, none)
  let title := event_data.title.getD ""
  let group_id :=
    match event_data.cod_sdoppiamento with
    | some c => if c ≠ "" then extract_group_id c title else none
    | none => none
  Except.ok
    { title := title
      start := start
      end_ := end_
      professor := event_data.docente
      module_code := event_data.cod_modulo
      credits := credits
      time_display := event_data.orario
      teaching_period := event_data.periodo
      calendar_period := event_data.calendarioperiodo
      classrooms := classrooms
      is_remote := remote.1
      teams_link := remote.2
      notes := event_data.note
      group_id := group_id
      cod_sdoppiamento := event_data.cod_sdoppiamento }

/-- The event loop of `parse_events`: decode every record in order; a record
failure aborts the batch (the caller treats it as an endpoint failure). -/
def parseAllEvents : List RawEvent → Except PyError (List TimetableEvent)
  | [] => Except.ok []
  | r :: rs =>
    match parse_event r with
    | .error e => .error e
    | .ok e =>
      match parseAllEvents rs with
      | .error e2 => .error e2
      | .ok es => .ok (e :: es)

/-- The sort key relation of `events.sort(key=lambda e: e.start)`. -/
def startLe (e1 e2 : TimetableEvent) : Prop :=
  e1.start.toKeyInt ≤ e2.start.toKeyInt

instance : DecidableRel startLe := fun a b =>
  inferInstanceAs (Decidable (a.start.toKeyInt ≤ b.start.toKeyInt))

instance : IsTotal TimetableEvent startLe :=
  ⟨fun a b => Int.le_total a.start.toKeyInt b.start.toKeyInt⟩

instance : IsTrans TimetableEvent startLe :=
  ⟨fun _ _ _ h1 h2 => le_trans h1 h2⟩

/-- `events.sort(key=lambda e: e.start)` — a stable sort by start time;
any stable sort computes the same list, insertion sort is used here. -/
def sortEventsByStart (events : List TimetableEvent) : List TimetableEvent :=
  List.insertionSort startLe events

/-- The per-event dictionary appended to `hash_input` (semantically
significant fields only). -/
structure HashEntry where
  title : String
  start : String
  end_ : String
  professor : Option String
  module_code : Option String
  teaching_period : Option String
  is_remote : Bool
deriving DecidableEq

/-- Build the `hash_input` entry of one decoded event. -/
def hashEntryOf (event : TimetableEvent) : HashEntry :=
  { title := event.title
    start := event.start.isoformat
    end_ := event.end_.isoformat
    professor := event.professor
    module_code := event.module_code
    teaching_period := event.teaching_period
    is_remote := event.is_remote }

/-- Lower-case hexadecimal digit. -/
def hexDigit (n : Nat) : Char :=
  if n < 10 then Char.ofNat (48 + n) else Char.ofNat (87 + n)

/-- `json.dumps` escaping of a single character (default escaping with
`ensure_ascii=False`: only the quote, backslash and control characters are
escaped). -/
def jsonEscapeChar (c : Char) : List Char :=
  if c = '"' then ['\\', '"']
  else if c = '\\' then ['\\', '\\']
  else if c = '\n' then ['\\', 'n']
  else if c = '\r' then ['\\', 'r']
  else if c = '\t' then ['\\', 't']
  else if c = '\x08' then ['\\', 'b']
  else if c = '\x0c' then ['\\', 'f']
  else if c.toNat < 32 then
    ['\\', 'u', '0', '0', hexDigit (c.toNat / 16), hexDigit (c.toNat % 16)]
  else [c]

/-- `json.dumps` of a string value. -/
def jsonString (s : String) : String :=
  "\"" ++ String.mk (s.data.foldr (fun c acc => jsonEscapeChar c ++ acc) []) ++ "\""

/-- `json.dumps` of an optional string (`None` → `null`). -/
def jsonOptString : Option String → String
  | some s => jsonString s
  | none => "null"

/-- `json.dumps` of a boolean. -/
def jsonBool (b : Bool) : String :=
  if b then "true" else "false"

/-- `json.dumps(entry, sort_keys=True, ensure_ascii=False)` for one
`hash_input` entry: keys in sorted order `end`, `is_remote`, `module_code`,
`professor`, `start`, `teaching_period`, `title`, with the default
`(", ", ": ")` separators. -/
def serializeHashEntry (h : HashEntry) : String :=
  "\x7b\"end\": " ++ jsonString h.end_ ++
    ", \"is_remote\": " ++ jsonBool h.is_remote ++
    ", \"module_code\": " ++ jsonOptString h.module_code ++
    ", \"professor\": " ++ jsonOptString h.professor ++
    ", \"start\": " ++ jsonString h.start ++
    ", \"teaching_period\": " ++ jsonOptString h.teaching_period ++
    ", \"title\": " ++ jsonString h.title ++ "\x7d"

/-- `json.dumps(hash_input, sort_keys=True, ensure_ascii=False)`. -/
def serializeHashInput (hs : List HashEntry) : String :=
  "[" ++ String.intercalate ", " (hs.map serializeHashEntry) ++ "]"

/-- UTF-8 encoding of one character (model of `str.encode("utf-8")`). -/
def utf8EncodeChar (c : Char) : List Nat :=
  let n := c.toNat
  if n < 128 then [n]
  else if n < 2048 then [192 + n / 64, 128 + n % 64]
  else if n < 65536 then [224 + n / 4096, 128 + (n / 64) % 64, 128 + n % 64]
  else [240 + n / 262144, 128 + (n / 4096) % 64, 128 + (n / 64) % 64, 128 + n % 64]

/-- UTF-8 byte sequence of a string. -/
def utf8Bytes (s : String) : List Nat :=
  s.data.foldr (fun c acc => utf8EncodeChar c ++ acc) []

/-- Reduction modulo 2^32 for SHA-256 word arithmetic. -/
def m32 (n : Nat) : Nat := n % 4294967296

/-- 32-bit right rotation. -/
def rotr32 (n k : Nat) : Nat := m32 ((n >>> k) ||| (n <<< (32 - k)))

/-- SHA-256 `Ch` function. -/
def shaCh (x y z : Nat) : Nat := (x &&& y) ^^^ ((x ^^^ 4294967295) &&& z)

/-- SHA-256 `Maj` function. -/
def shaMaj (x y z : Nat) : Nat := ((x &&& y) ^^^ (x &&& z)) ^^^ (y &&& z)

/-- SHA-256 Σ0. -/
def bigSigma0 (x : Nat) : Nat := (rotr32 x 2 ^^^ rotr32 x 13) ^^^ rotr32 x 22

/-- SHA-256 Σ1. -/
def bigSigma1 (x : Nat) : Nat := (rotr32 x 6 ^^^ rotr32 x 11) ^^^ rotr32 x 25

/-- SHA-256 σ0. -/
def smallSigma0 (x : Nat) : Nat := (rotr32 x 7 ^^^ rotr32 x 18) ^^^ (x >>> 3)

/-- SHA-256 σ1. -/
def smallSigma1 (x : Nat) : Nat := (rotr32 x 17 ^^^ rotr32 x 19) ^^^ (x >>> 10)

/-- The sixty-four SHA-256 round constants (written in decimal). -/
def shaK : List Nat :=
  [1116352408, 1899447441, 3049323471, 3921009573, 961987163,
   1508970993, 2453635748, 2870763221, 3624381080, 310598401,
   607225278, 1426881987, 1925078388, 2162078206, 2614888103,
   3248222580, 3835390401, 4022224774, 264347078, 604807628,
   770255983, 1249150122, 1555081692, 1996064986, 2554220882,
   2821834349, 2952996808, 3210313671, 3336571891, 3584528711,
   113926993, 338241895, 666307205, 773529912, 1294757372,
   1396182291, 1695183700, 1986661051, 2177026350, 2456956037,
   2730485921, 2820302411, 3259730800, 3345764771, 3516065817,
   3600352804, 4094571909, 275423344, 430227734, 506948616,
   659060556, 883997877, 958139571, 1322822218, 1537002063,
   1747873779, 1955562222, 2024104815, 2227730452, 2361852424,
   2428436474, 2756734187, 3204031479, 3329325298]

/-- SHA-256 hash state (eight 32-bit words). -/
structure Sha256State where
  h0 : Nat
  h1 : Nat
  h2 : Nat
  h3 : Nat
  h4 : Nat
  h5 : Nat
  h6 : Nat
  h7 : Nat
deriving DecidableEq

/-- The eight SHA-256 initial hash values (written in decimal). -/
def sha256Init : Sha256State :=
  ⟨1779033703, 3144134277, 1013904242, 2773480762,
   1359893119, 2600822924, 528734635, 1541459225⟩

/-- Extend sixteen message-schedule words to sixty-four. -/
def extendSchedule (ws : List Nat) : List Nat :=
  (List.range 48).foldl
    (fun acc _ =>
      let n := acc.length
      acc ++ [m32 (smallSigma1 (acc.getD (n - 2) 0) + acc.getD (n - 7) 0 +
        smallSigma0 (acc.getD (n - 15) 0) + acc.getD (n - 16) 0)])
    ws

/-- One SHA-256 compression over a 64-word schedule. -/
def compressWords (st : Sha256State) (ws : List Nat) : Sha256State :=
  let t := (shaK.zip ws).foldl
    (fun (acc : Nat × Nat × Nat × Nat × Nat × Nat × Nat × Nat) kw =>
      let t1 := m32 (acc.2.2.2.2.2.2.2 + bigSigma1 acc.2.2.2.2.1 +
        shaCh acc.2.2.2.2.1 acc.2.2.2.2.2.1 acc.2.2.2.2.2.2.1 + kw.1 + kw.2)
      let t2 := m32 (bigSigma0 acc.1 + shaMaj acc.1 acc.2.1 acc.2.2.1)
      (m32 (t1 + t2), acc.1, acc.2.1, acc.2.2.1, m32 (acc.2.2.2.1 + t1),
        acc.2.2.2.2.1, acc.2.2.2.2.2.1, acc.2.2.2.2.2.2.1))
    (st.h0, st.h1, st.h2, st.h3, st.h4, st.h5, st.h6, st.h7)
  ⟨m32 (st.h0 + t.1), m32 (st.h1 + t.2.1), m32 (st.h2 + t.2.2.1),
   m32 (st.h3 + t.2.2.2.1), m32 (st.h4 + t.2.2.2.2.1), m32 (st.h5 + t.2.2.2.2.2.1),
   m32 (st.h6 + t.2.2.2.2.2.2.1), m32 (st.h7 + t.2.2.2.2.2.2.2)⟩

/-- Merkle–Damgård padding of a byte message. -/
def padMessage (msg : List Nat) : List Nat :=
  let l := msg.length
  let z := (64 - ((l + 9) % 64)) % 64
  let bitLen := l * 8
  msg ++ [128] ++ List.replicate z 0 ++
    [(bitLen / 2 ^ 56) % 256, (bitLen / 2 ^ 48) % 256, (bitLen / 2 ^ 40) % 256,
     (bitLen / 2 ^ 32) % 256, (bitLen / 2 ^ 24) % 256, (bitLen / 2 ^ 16) % 256,
     (bitLen / 2 ^ 8) % 256, bitLen % 256]

/-- Big-endian 32-bit words from a byte list. -/
def bytesToWords : List Nat → List Nat
  | b0 :: b1 :: b2 :: b3 :: rest =>
    (((b0 * 256 + b1) * 256 + b2) * 256 + b3) :: bytesToWords rest
  | _ => []

/-- Split a padded byte list into 64-byte blocks. -/
def chunks64 (l : List Nat) : List (List Nat) :=
  if h : l = [] then []
  else
    (l.take 64) :: chunks64 (l.drop 64)
termination_by l.length
decreasing_by
  simp only [List.length_drop]
  have : l.length ≠ 0 := fun hl => h (List.length_eq_zero.mp hl)
  omega

/-- SHA-256 final state over a byte message. -/
def sha256Final (msg : List Nat) : Sha256State :=
  ((chunks64 (padMessage msg)).map bytesToWords).foldl
    (fun st ws => compressWords st (extendSchedule ws)) sha256Init

/-- Big-endian bytes of a 32-bit word. -/
def wordBytes (w : Nat) : List Nat :=
  [(w / 2 ^ 24) % 256, (w / 2 ^ 16) % 256, (w / 2 ^ 8) % 256, w % 256]

/-- Two hex characters of a byte. -/
def byteHex (b : Nat) : List Char :=
  [hexDigit ((b / 16) % 16), hexDigit (b % 16)]

/-- Digest bytes of a final SHA-256 state. -/
def digestBytes (st : Sha256State) : List Nat :=
  ([st.h0, st.h1, st.h2, st.h3, st.h4, st.h5, st.h6, st.h7].foldr
    (fun w acc => wordBytes w ++ acc) [])

/-- `hashlib.sha256(s.encode("utf-8")).hexdigest()`. -/
def sha256Hexdigest (s : String) : String :=
  String.mk ((digestBytes (sha256Final (utf8Bytes s))).foldr
    (fun b acc => byteHex b ++ acc) [])

/-- The content hash of a non-empty `hash_input`:
`sha256(json_str.encode("utf-8")).hexdigest()[:16]`. -/
def contentHashOf (hash_input : List HashEntry) : String :=
  if hash_input.isEmpty then ""
  else String.mk ((sha256Hexdigest (serializeHashInput hash_input)).data.take 16)

/-- `TimetableParser.parse_events`: decode every record (collecting the
significant fields for hashing in arrival order), sort the events by start
time, and compute the 16-character content hash (empty string for an empty
batch). -/
def parse_events (events_data : List RawEvent) :
    Except PyError (List TimetableEvent × String) :=
  match parseAllEvents events_data with
  | .error e => .error e
  | .ok events => .ok (sortEventsByStart events, contentHashOf (events.map hashEntryOf))

/-- A parsed JSON response body: either not an array at all, or an array of
records. -/
inductive Payload where
  | notArray
  | arr (records : List RawEvent)
deriving DecidableEq

/-- `TimetableParser.validate_response`: an array is required; a non-empty
array must carry `title`, `start` and `end` on its first record. -/
def validate_response : Payload → Bool
  | .notArray => false
  | .arr [] => true
  | .arr (first :: _) => first.title.isSome && first.start.isSome && first.end_.isSome

/-- Query parameters of one timetable request (`anno`, `curricula`, `start`,
`end`; the Python key `end` is `end_` here). -/
structure RequestParams where
  anno : Int
  curricula : String
  start : String
  end_ : String
deriving DecidableEq

/-- `course_site_url.rstrip("/")`. -/
def rstripSlash (s : String) : String :=
  String.mk (s.data.reverse.dropWhile (fun c => c == '/')).reverse

/-- `TimetableScraper._build_timetable_url`. -/
def build_timetable_url (course_site_url : String) (endpoint : String)
    (academic_year : Int) (start_date : String) (end_date : String)
    (curriculum : Option Curriculum) : String × RequestParams :=
  let base := rstripSlash course_site_url
  (base ++ endpoint,
   { anno := academic_year
     curricula := (curriculum.map (fun c => c.code)).getD ""
     start := start_date
     end_ := end_date })

/-- `TimetableScraper.TIMETABLE_ENDPOINTS`. -/
def TIMETABLE_ENDPOINTS : List String :=
  ["/orario-lezioni/@@orario_reale_json", "/timetable/@@orario_reale_json"]

/-- Outcome of `json.loads(await http_client.get(url, params))` for one
request: `fail` covers transport errors, timeouts, non-2xx responses and
JSON parse errors (all surface as exceptions caught by the endpoint loop);
`ok` carries the parsed payload. -/
inductive EndpointResponse where
  | fail
  | ok (payload : Payload)
deriving DecidableEq

/-- The network environment: what each (URL, query parameters) request
returns.  A deterministic function, since one fetch issues each request
once. -/
def Env : Type := String → RequestParams → EndpointResponse

/-- One endpoint attempt shared by `fetch_timetable` and
`get_curriculum_timetable`: build the request, issue it, validate the
payload and decode it.  `none` means the attempt failed (transport error,
parse error, invalid shape, or a record decode error) and the loop advances
to the next candidate. -/
def fetchAttempt (env : Env) (course_site_url : String) (endpoint : String)
    (academic_year : Int) (start_date : String) (end_date : String)
    (curriculum : Option Curriculum) : Option (List TimetableEvent × String) :=
  let up := build_timetable_url course_site_url endpoint academic_year
    start_date end_date curriculum
  match env up.1 up.2 with
  | .fail => none
  | .ok payload =>
    if validate_response payload = false then none
    else
      match payload with
      | .notArray => none
      | .arr records =>
        match parse_events records with
        | .error _ => none
        | .ok pair => some pair

/-- The value the scraper binds to its local variable `events`.  Because
`parse_events` returns a pair `(events, content_hash)` and the scraper does
`events = self.parser.parse_events(json_data)` without unpacking, on success
that variable holds the 2-tuple, not the event list. -/
inductive PyEvents where
  | list (events : List TimetableEvent)
  | tuple (events : List TimetableEvent) (content_hash : String)
deriving DecidableEq

/-- `Timetable.__post_init__` applied to the value assigned to the `events`
field: a non-empty value is sorted in place with `self.events.sort(...)`.
A tuple is truthy (it always has two items) but has no `sort` attribute, so
the constructor raises `AttributeError`. -/
def timetablePostInit : PyEvents → Except PyError (List TimetableEvent)
  | .list events =>
    if events.isEmpty then Except.ok events
    else Except.ok (sortEventsByStart events)
  | .tuple _ _ => Except.error .attributeError

/-- `models/timetable.py`: `Timetable` dataclass, after `__post_init__`
succeeded (its `events` field then holds a list). -/
structure Timetable where
  course_id : Int
  course_title : String
  academic_year : Int
  start_date : DateTime
  end_date : DateTime
  events : List TimetableEvent
  has_timetable : Bool
  fetch_successful : Bool
  endpoint_used : Option String
deriving DecidableEq

/-- The body of `TimetableScraper.fetch_timetable` after the URL check.  The
caller-supplied `reference_date` is forwarded positionally into the
`academic_year` slot of `get_api_date_range` (the real `reference_date`
keyword stays at its `None` default), so the window always derives from
`now`.  Each endpoint is tried in order; a successful decode binds the
`(events, hash)` pair to `events`, and the `Timetable` construction then
raises `AttributeError` in `__post_init__` (caught by the loop's
`except Exception`).  When no endpoint survives, the empty unsuccessful
timetable is returned. -/
def fetchTimetableLoop (env : Env) (course_site_url : String) (course_id : Int)
    (course_title : String) (academic_year : Int) (extended_range : Bool)
    (reference_date : Option DateTime) (now : DateTime) : Timetable :=
  let window := get_api_date_range reference_date none extended_range now
  let start_date := window.1
  let end_date := window.2
  let startDT := (fromisoformat start_date).getD ⟨1, 1, 1, 0, 0, 0⟩
  let endDT := (fromisoformat end_date).getD ⟨1, 1, 1, 0, 0, 0⟩
  let result := TIMETABLE_ENDPOINTS.foldl
    (fun (acc : Option Timetable) endpoint =>
      match acc with
      | some t => some t
      | none =>
        match fetchAttempt env course_site_url endpoint academic_year
            start_date end_date none with
        | none => none
        | some pair =>
          match timetablePostInit (.tuple pair.1 pair.2) with
          | .error _ => none
          | .ok sortedEvents =>
            some
              { course_id := course_id
                course_title := course_title
                academic_year := academic_year
                start_date := startDT
                end_date := endDT
                events := sortedEvents
                has_timetable := true
                fetch_successful := true
                endpoint_used := some endpoint })
    none
  match result with
  | some t => t
  | none =>
    { course_id := course_id
      course_title := course_title
      academic_year := academic_year
      start_date := startDT
      end_date := endDT
      events := []
      has_timetable := false
      fetch_successful := false
      endpoint_used := none }

/-- `TimetableScraper.fetch_timetable`: fail fast with `ValueError` on an
empty `course_site_url`, otherwise run the endpoint loop (which never
raises). -/
def fetch_timetable (env : Env) (course_site_url : String) (course_id : Int)
    (course_title : String) (academic_year : Int) (extended_range : Bool)
    (reference_date : Option DateTime) (now : DateTime) :
    Except PyError Timetable :=
  if course_site_url = "" then Except.error .valueError
  else Except.ok (fetchTimetableLoop env course_site_url course_id course_title
    academic_year extended_range reference_date now)

/-- `models/timetable.py`: `CurriculumTimetable` dataclass.  The element
type of `events` is a parameter because Python does not enforce the
annotation `List[TimetableEvent]`: the scraper in fact stores the
`(events, hash)` pair there on a successful fetch (see `PyObj`). -/
structure CurriculumTimetable (α : Type) where
  curriculum : Curriculum
  events : List α
deriving DecidableEq

/-- A Python object reachable from a fetched `events` field: a timetable
event, a list of events, or a string.  A stored `(events, hash)` tuple is
represented by the two-item sequence `[evList events, str hash]`, which has
the tuple's `len` and iteration behaviour. -/
inductive PyObj where
  | ev (event : TimetableEvent)
  | evList (events : List TimetableEvent)
  | str (s : String)
deriving DecidableEq

/-- The body of `TimetableScraper.get_curriculum_timetable` after the URL
check.  The date window again always derives from `now` (the caller's
`reference_date` lands in the unused `academic_year` slot).  On the first
surviving endpoint the un-unpacked `(events, hash)` pair is stored as the
`events` field (`CurriculumTimetable` has no `__post_init__`, so nothing
raises); if every endpoint fails, an empty timetable is returned. -/
def getCurriculumTimetableLoop (env : Env) (course_site_url : String)
    (curriculum : Curriculum) (academic_year : Int) (extended_range : Bool)
    (reference_date : Option DateTime) (now : DateTime) :
    CurriculumTimetable PyObj :=
  let window := get_api_date_range reference_date none extended_range now
  let start_date := window.1
  let end_date := window.2
  let result := TIMETABLE_ENDPOINTS.foldl
    (fun (acc : Option (CurriculumTimetable PyObj)) endpoint =>
      match acc with
      | some ct => some ct
      | none =>
        match fetchAttempt env course_site_url endpoint academic_year
            start_date end_date (some curriculum) with
        | none => none
        | some pair =>
          some { curriculum := curriculum
                 events := [PyObj.evList pair.1, PyObj.str pair.2] })
    none
  match result with
  | some ct => ct
  | none => { curriculum := curriculum, events := [] }

/-- `TimetableScraper.get_curriculum_timetable`. -/
def get_curriculum_timetable (env : Env) (course_site_url : String)
    (curriculum : Curriculum) (academic_year : Int) (extended_range : Bool)
    (reference_date : Option DateTime) (now : DateTime) :
    Except PyError (CurriculumTimetable PyObj) :=
  if course_site_url = "" then Except.error .valueError
  else Except.ok (getCurriculumTimetableLoop env course_site_url curriculum
    academic_year extended_range reference_date now)

/-- First-match association-list lookup, the model of a Python dict read
(dict keys are unique, so first match is the match). -/
def assocGet {K V : Type} [DecidableEq K] : List (K × V) → K → Option V
  | [], _ => none
  | (k0, v) :: rest, k => if k0 = k then some v else assocGet rest k

/-- Python dict assignment `d[k] = v`: replace in place, preserving the
original insertion position, or append a new entry. -/
def assocSet {K V : Type} [DecidableEq K] : List (K × V) → K → V → List (K × V)
  | [], k, v => [(k, v)]
  | (k0, v0) :: rest, k, v =>
    if k0 = k then (k0, v) :: rest else (k0, v0) :: assocSet rest k v

/-- In-place update of the entry at a key (models mutating the object a dict
lookup aliases). -/
def assocModify {K V : Type} [DecidableEq K] : List (K × V) → K → (V → V) → List (K × V)
  | [], _, _ => []
  | (k0, v0) :: rest, k, f =>
    if k0 = k then (k0, f v0) :: rest else (k0, v0) :: assocModify rest k f

/-- `models/timetable.py`: `AcademicYearTimetable` dataclass; `curricula` is
an insertion-ordered dict from curriculum code. -/
structure AcademicYearTimetable (α : Type) where
  year : Int
  curricula : List (String × CurriculumTimetable α)
deriving DecidableEq

/-- `AcademicYearTimetable.add_curriculum_timetable`. -/
def AcademicYearTimetable.add_curriculum_timetable {α : Type}
    (yt : AcademicYearTimetable α) (ct : CurriculumTimetable α) :
    AcademicYearTimetable α :=
  { yt with curricula := assocSet yt.curricula ct.curriculum.code ct }

/-- `AcademicYearTimetable.get_curriculum`. -/
def AcademicYearTimetable.get_curriculum {α : Type}
    (yt : AcademicYearTimetable α) (code : String) :
    Option (CurriculumTimetable α) :=
  assocGet yt.curricula code

/-- `AcademicYearTimetable.get_all_events`: extend an accumulator with each
curriculum's events in dict order. -/
def AcademicYearTimetable.get_all_events {α : Type}
    (yt : AcademicYearTimetable α) : List α :=
  yt.curricula.foldr (fun p acc => p.2.events ++ acc) []

/-- `models/timetable.py`: `TimetableCollection` dataclass; `years` is an
insertion-ordered dict from year number. -/
structure TimetableCollection (α : Type) where
  years : List (Int × AcademicYearTimetable α)
deriving DecidableEq

/-- `TimetableCollection.get_year`. -/
def TimetableCollection.get_year {α : Type} (c : TimetableCollection α)
    (year : Int) : Option (AcademicYearTimetable α) :=
  assocGet c.years year

/-- `TimetableCollection.add_curriculum_timetable`: `get_or_create_year`
inserts an empty year container on first reference, then the curriculum
timetable is stored into that (aliased) container. -/
def TimetableCollection.add_curriculum_timetable {α : Type}
    (c : TimetableCollection α) (year : Int) (ct : CurriculumTimetable α) :
    TimetableCollection α :=
  let years0 :=
    if (assocGet c.years year).isSome then c.years
    else c.years ++ [(year, { year := year, curricula := [] })]
  { years := assocModify years0 year (fun yt => yt.add_curriculum_timetable ct) }

/-- `TimetableCollection.get_curriculum`. -/
def TimetableCollection.get_curriculum {α : Type} (c : TimetableCollection α)
    (year : Int) (code : String) : Option (CurriculumTimetable α) :=
  match c.get_year year with
  | some yt => yt.get_curriculum code
  | none => none

/-- `TimetableCollection.get_all_events`, with its four filter branches in
source order: year and curriculum, year only, curriculum only, everything. -/
def TimetableCollection.get_all_events {α : Type} (c : TimetableCollection α)
    (year : Option Int) (curriculum_code : Option String) : List α :=
  match year, curriculum_code with
  | some y, some code =>
    match c.get_curriculum y code with
    | some ct => ct.events
    | none => []
  | some y, none =>
    match c.get_year y with
    | some yt => yt.get_all_events
    | none => []
  | none, some code =>
    c.years.foldr
      (fun p acc =>
        (match p.2.get_curriculum code with
          | some ct => ct.events
          | none => []) ++ acc) []
  | none, none =>
    c.years.foldr (fun p acc => p.2.get_all_events ++ acc) []

/-- `TimetableCollection.__len__`: the length of the unfiltered flattening. -/
def TimetableCollection.pyLen {α : Type} (c : TimetableCollection α) : Nat :=
  (c.get_all_events none none).length

/-- `TimetableScraper.get_timetables`: build the (year × curriculum) task
cross-product in order, run every `get_curriculum_timetable` (the
`asyncio.gather` returns results in task order regardless of completion
order; an exception from any task propagates), and fold the results into a
fresh collection in task order. -/
def get_timetables (env : Env) (course_site_url : String)
    (curricula : List Curriculum) (academic_years : List Int)
    (extended_range : Bool) (reference_date : Option DateTime)
    (now : DateTime) : Except PyError (TimetableCollection PyObj) := do
  let tasks := academic_years.flatMap
    (fun year => curricula.map (fun curriculum => (year, curriculum)))
  let results ← tasks.mapM
    (fun yc => get_curriculum_timetable env course_site_url yc.2 yc.1
      extended_range reference_date now)
  Except.ok ((tasks.zip results).foldl
    (fun collection p => collection.add_curriculum_timetable p.1.1 p.2)
    { years := [] })

/-- The grouping key of `group_events_by_group` and
`Timetable.split_by_group`: a truthy `group_id` is its own key, while an
absent or empty `group_id` falls into the reserved bucket `common`. -/
def groupKey (event : TimetableEvent) : String :=
  match event.group_id with
  | some g => if g ≠ "" then g else "common"
  | none => "common"

/-- `grouped[key].append(event)` preceded by `grouped.setdefault`-style
creation of the bucket: append to the first entry with the key, or create
the bucket at the end. -/
def addToBucket (d : List (String × List TimetableEvent)) (k : String)
    (e : TimetableEvent) : List (String × List TimetableEvent) :=
  match d with
  | [] => [(k, [e])]
  | (k0, es) :: rest =>
    if k0 = k then (k0, es ++ [e]) :: rest else (k0, es) :: addToBucket rest k e

/-- `utils/timetable_filters.py`: `group_events_by_group`. -/
def group_events_by_group (events : List TimetableEvent) :
    List (String × List TimetableEvent) :=
  events.foldl (fun grouped event => addToBucket grouped (groupKey event) event) []

/-- `Timetable.split_by_group`, with the source's own `if event.group_id`
branch structure. -/
def Timetable.split_by_group (t : Timetable) :
    List (String × List TimetableEvent) :=
  t.events.foldl
    (fun result event =>
      match event.group_id with
      | some g =>
        if g ≠ "" then addToBucket result g event
        else addToBucket result "common" event
      | none => addToBucket result "common" event)
    []

/-- Contents of one bucket of a grouped dict (empty when the key is
absent). -/
def bucketContents (d : List (String × List TimetableEvent)) (k : String) :
    List TimetableEvent :=
  (assocGet d k).getD []

/-- A JSON value that can appear in a raw event record: strings for the
textual fields, a classroom array for `aule`. -/
inductive RawVal where
  | str (s : String)
  | aulaList (aule : List RawAula)
deriving DecidableEq

/-- A raw JSON event object with explicit key order: the association list of
its keys, as `json.loads` would traverse them. -/
abbrev RawEventObj : Type := List (String × RawVal)

/-- Dict read of a string-valued key. -/
def objGetStr (o : RawEventObj) (k : String) : Option String :=
  match assocGet o k with
  | some (.str s) => some s
  | _ => none

/-- Dict read of the classroom-array key. -/
def objGetAule (o : RawEventObj) (k : String) : Option (List RawAula) :=
  match assocGet o k with
  | some (.aulaList a) => some a
  | _ => none

/-- The `RawEvent` view of a raw JSON object: one dict lookup per key the
decoder reads.  Key order of the object does not enter any lookup. -/
def rawEventOfObj (o : RawEventObj) : RawEvent :=
  { title := objGetStr o "title"
    start := objGetStr o "start"
    end_ := objGetStr o "end"
    docente := objGetStr o "docente"
    cod_modulo := objGetStr o "cod_modulo"
    cfu := objGetStr o "cfu"
    orario := objGetStr o "orario"
    periodo := objGetStr o "periodo"
    calendarioperiodo := objGetStr o "calendarioperiodo"
    aule := objGetAule o "aule"
    teams := objGetStr o "teams"
    note := objGetStr o "note"
    cod_sdoppiamento := objGetStr o "cod_sdoppiamento" }

/-- Two raw objects are key-order variants: same entries up to permutation,
with no duplicate keys (as `json.loads` guarantees for a given record). -/
def keyOrderVariant (o1 o2 : RawEventObj) : Prop :=
  o1.Perm o2 ∧ (o1.map Prod.fst).Nodup

/-- Environment for the recorded fallback scenario: the Italian endpoint of
the course site answers with a structurally invalid payload (valid JSON that
is not an array), the English endpoint answers with a valid empty array. -/
def c1Env : Env := fun url _ =>
  if url = "https://site.example/course/orario-lezioni/@@orario_reale_json" then
    EndpointResponse.ok Payload.notArray
  else
    EndpointResponse.ok (Payload.arr [])

/-- An event starting on the later day (stored under curriculum `A`). -/
def laterEvent : TimetableEvent :=
  { title := "ALGEBRA", start := ⟨2026, 1, 2, 10, 0, 0⟩, end_ := ⟨2026, 1, 2, 12, 0, 0⟩ }

/-- An event starting on the earlier day (stored under curriculum `B`). -/
def earlierEvent : TimetableEvent :=
  { title := "CALCULUS", start := ⟨2026, 1, 1, 10, 0, 0⟩, end_ := ⟨2026, 1, 1, 12, 0, 0⟩ }

/-- A curriculum timetable holding only `laterEvent` (a sorted list). -/
def ctLater : CurriculumTimetable TimetableEvent :=
  { curriculum := { code := "A", label := "Track A", selected := false }
    events := [laterEvent] }

/-- A curriculum timetable holding only `earlierEvent` (a sorted list). -/
def ctEarlier : CurriculumTimetable TimetableEvent :=
  { curriculum := { code := "B", label := "Track B", selected := false }
    events := [earlierEvent] }

/-- A collection assembled from the two curriculum timetables of year 1, in
insertion order `A` then `B`. -/
def unsortedScopeCollection : TimetableCollection TimetableEvent :=
  (TimetableCollection.add_curriculum_timetable
    (TimetableCollection.add_curriculum_timetable { years := [] } 1 ctLater)
    1 ctEarlier)

/-- The term-start year as the spec words it: the reference year from
September on, the previous year before September. -/
def termStartYear (d : DateTime) : Int :=
  if d.month ≥ 9 then d.year else d.year - 1

/-! ## Helper lemmas -/

theorem assocGet_mem {K V : Type} [DecidableEq K] {d : List (K × V)} {k : K} {v : V}
    (h : assocGet d k = some v) : (k, v) ∈ d := by
  induction d with
  | nil => simp [assocGet] at h
  | cons p rest ih =>
    obtain ⟨k1, v1⟩ := p
    simp only [assocGet] at h
    by_cases hk : k1 = k
    · rw [if_pos hk] at h
      injection h with hv
      subst hk
      subst hv
      exact List.mem_cons_self _ _
    · rw [if_neg hk] at h
      exact List.mem_cons_of_mem _ (ih h)

theorem assocGet_perm {K V : Type} [DecidableEq K] {d1 d2 : List (K × V)}
    (p : d1.Perm d2) (nd : (d1.map Prod.fst).Nodup) (k : K) :
    assocGet d1 k = assocGet d2 k := by
  induction p with
  | nil => rfl
  | cons x _ ih =>
    simp only [List.map_cons, List.nodup_cons] at nd
    by_cases hx : x.1 = k
    · simp [assocGet, hx]
    · simp [assocGet, hx, ih nd.2]
  | swap x y l =>
    simp only [List.map_cons, List.nodup_cons, List.mem_cons] at nd
    have hxy : y.1 ≠ x.1 := fun h => nd.1 (Or.inl h)
    by_cases h1 : y.1 = k
    · have h2 : x.1 ≠ k := fun h => hxy (h1.trans h.symm)
      simp [assocGet, h1, h2]
    · by_cases h2 : x.1 = k
      · simp [assocGet, h1, h2]
      · simp [assocGet, h1, h2]
  | trans p1 _ ih1 ih2 =>
    exact (ih1 nd).trans (ih2 ((p1.map Prod.fst).nodup_iff.mp nd))

theorem bucketContents_addToBucket (d : List (String × List TimetableEvent))
    (k0 k : String) (e : TimetableEvent) :
    bucketContents (addToBucket d k0 e) k =
      bucketContents d k ++ (if k0 = k then [e] else []) := by
  induction d with
  | nil =>
    by_cases hk : k0 = k <;> simp [addToBucket, bucketContents, assocGet, hk]
  | cons p rest ih =>
    obtain ⟨k1, es1⟩ := p
    by_cases h1 : k1 = k0
    · subst h1
      by_cases h2 : k1 = k <;>
        simp [addToBucket, bucketContents, assocGet, h2]
    · by_cases h2 : k1 = k
      · subst h2
        have h3 : k0 ≠ k1 := fun h => h1 h.symm
        simp [addToBucket, bucketContents, assocGet, h1, h3]
      · simpa [addToBucket, bucketContents, assocGet, h1, h2] using ih

theorem bucketContents_groupFold (events : List TimetableEvent)
    (d : List (String × List TimetableEvent)) (k : String) :
    bucketContents
        (events.foldl (fun grouped event => addToBucket grouped (groupKey event) event) d)
        k =
      bucketContents d k ++ events.filter (fun e => groupKey e == k) := by
  induction events generalizing d with
  | nil => simp
  | cons e es ih =>
    simp only [List.foldl_cons, List.filter_cons]
    rw [ih, bucketContents_addToBucket]
    by_cases hk : groupKey e = k
    · simp [hk, List.append_assoc]
    · simp [hk]

theorem foldr_append_eq_flatten_map {α β : Type} (f : α → List β) (l : List α) :
    l.foldr (fun x acc => f x ++ acc) [] = (l.map f).flatten := by
  induction l with
  | nil => rfl
  | cons x xs ih => simp [ih]

theorem parseAllEvents_length {rs : List RawEvent} {l : List TimetableEvent}
    (h : parseAllEvents rs = Except.ok l) : l.length = rs.length := by
  induction rs generalizing l with
  | nil =>
    simp only [parseAllEvents] at h
    cases h
    rfl
  | cons r rest ih =>
    simp only [parseAllEvents] at h
    cases he : parse_event r with
    | error _ => rw [he] at h; exact absurd h (by simp)
    | ok e =>
      rw [he] at h
      cases hr : parseAllEvents rest with
      | error _ => rw [hr] at h; exact absurd h (by simp)
      | ok es =>
        rw [hr] at h
        injection h with h2
        subst h2
        simp [ih hr]

theorem foldr_append_length {α β : Type} (f : α → List β) (k : Nat)
    (hf : ∀ a, (f a).length = k) (l : List α) :
    (l.foldr (fun a acc => f a ++ acc) []).length = k * l.length := by
  induction l with
  | nil => simp
  | cons x xs ih => simp [ih, hf x, Nat.mul_succ, Nat.add_comm]

theorem digestBytes_length (st : Sha256State) : (digestBytes st).length = 32 := rfl

theorem sha256Hexdigest_data_length (s : String) :
    (sha256Hexdigest s).data.length = 64 := by
  have h := foldr_append_length byteHex 2 (fun _ => rfl)
    (digestBytes (sha256Final (utf8Bytes s)))
  simpa [sha256Hexdigest, digestBytes_length] using h

theorem contentHashOf_length {hash_input : List HashEntry} (h : hash_input ≠ []) :
    (contentHashOf hash_input).length = 16 := by
  have hne : hash_input.isEmpty = false := by
    cases hash_input with
    | nil => exact absurd rfl h
    | cons a l => rfl
  simp only [contentHashOf, hne, Bool.false_eq_true, if_false]
  show ((sha256Hexdigest (serializeHashInput hash_input)).data.take 16).length = 16
  rw [List.length_take, sha256Hexdigest_data_length]
  decide

theorem rawEventOfObj_keyOrder {o1 o2 : RawEventObj} (h : keyOrderVariant o1 o2) :
    rawEventOfObj o1 = rawEventOfObj o2 := by
  obtain ⟨hperm, hnd⟩ := h
  have hg : ∀ k, assocGet o1 k = assocGet o2 k := assocGet_perm hperm hnd
  simp [rawEventOfObj, objGetStr, objGetAule, hg]

/-! ## Claims -/

/-- C5: for every reference date, `get_academic_year_range` returns
(September 1 of the term-start year, July 31 23:59:59 of the following
year), where the term-start year is the reference year for months from
September on and the previous year otherwise; the extended window moves the
start one year earlier and the end one year later; an absent reference date
is replaced by the current date. -/
theorem C5_academic_year_range (ref : Option DateTime) (ext : Bool) (now : DateTime) :
    (get_academic_year_range ref false now =
      (⟨termStartYear (ref.getD now), 9, 1, 0, 0, 0⟩,
       ⟨termStartYear (ref.getD now) + 1, 7, 31, 23, 59, 59⟩)) ∧
    (get_academic_year_range ref true now =
      (⟨termStartYear (ref.getD now) - 1, 9, 1, 0, 0, 0⟩,
       ⟨termStartYear (ref.getD now) + 1 + 1, 7, 31, 23, 59, 59⟩)) ∧
    get_academic_year_range none ext now = get_academic_year_range (some now) ext now := by
  refine ⟨?_, ?_, rfl⟩ <;>
    by_cases h : 9 ≤ (ref.getD now).month <;>
    simp [get_academic_year_range, termStartYear, h, Prod.ext_iff,
      DateTime.mk.injEq]

/-- C9: `get_api_date_range` ignores its first parameter `academic_year`
entirely, and since `fetch_timetable` and `get_curriculum_timetable` pass
their caller-supplied `reference_date` positionally into that slot (leaving
the real `reference_date` at `None`), both methods return identical results
for any two caller-supplied reference dates: the request window always
derives from the current date. -/
theorem C9_reference_date_is_dead :
    (∀ {A B : Type} (ay1 : A) (ay2 : B) (ref : Option DateTime) (ext : Bool)
        (now : DateTime),
      get_api_date_range ay1 ref ext now = get_api_date_range ay2 ref ext now) ∧
    (∀ (env : Env) (url : String) (cid : Int) (ctitle : String) (year : Int)
        (ext : Bool) (r1 r2 : Option DateTime) (now : DateTime),
      fetch_timetable env url cid ctitle year ext r1 now =
        fetch_timetable env url cid ctitle year ext r2 now) ∧
    (∀ (env : Env) (url : String) (cur : Curriculum) (year : Int) (ext : Bool)
        (r1 r2 : Option DateTime) (now : DateTime),
      get_curriculum_timetable env url cur year ext r1 now =
        get_curriculum_timetable env url cur year ext r2 now) :=
  ⟨fun _ _ _ _ _ => rfl,
   fun _ _ _ _ _ _ _ _ _ => rfl,
   fun _ _ _ _ _ _ _ _ => rfl⟩

/-- C6: for a raw code containing `--`, `extract_group_id` returns the
trimmed suffix after the last separator occurrence unless that candidate
equals the base module segment (text before the first underscore), is
empty, exceeds 10 characters, or has no alphanumeric character — in which
cases it returns `none`; the function is pure; and the three recorded
examples evaluate as claimed. -/
theorem C6_extract_group_id :
    (∀ (cod title : String),
      (pySplit cod "--").length > 1 →
      extract_group_id cod title =
        (if pyStrip ((pySplit cod "--").getLastD "") = (pySplit cod "_").headD "" ∨
            pyStrip ((pySplit cod "--").getLastD "") = "" ∨
            (pyStrip ((pySplit cod "--").getLastD "")).length > 10 ∨
            ¬ hasAlnumChar (pyStrip ((pySplit cod "--").getLastD ""))
          then none
          else some (pyStrip ((pySplit cod "--").getLastD "")))) ∧
    (∀ (cod title : String), extract_group_id cod title = extract_group_id cod title) ∧
    extract_group_id "00819_1--CL.A" "PROGRAMMING" = some "CL.A" ∧
    extract_group_id "08793--A-L" "MEDICINE" = some "A-L" ∧
    extract_group_id "12345" "ALGEBRA" = none := by
  refine ⟨?_, fun _ _ => rfl, by decide, by decide, by decide⟩
  intro cod title h
  simp only [extract_group_id, if_pos h]
  split_ifs <;> tauto

/-- C6 witness: the separator-bearing characterization applied to the
concrete raw code `08793--A-L`. -/
theorem C6_extract_group_id_witness :
    (pySplit "08793--A-L" "--").length > 1 ∧
    extract_group_id "08793--A-L" "MEDICINE" =
      (if pyStrip ((pySplit "08793--A-L" "--").getLastD "") =
            (pySplit "08793--A-L" "_").headD "" ∨
          pyStrip ((pySplit "08793--A-L" "--").getLastD "") = "" ∨
          (pyStrip ((pySplit "08793--A-L" "--").getLastD "")).length > 10 ∨
          ¬ hasAlnumChar (pyStrip ((pySplit "08793--A-L" "--").getLastD ""))
        then none
        else some (pyStrip ((pySplit "08793--A-L" "--").getLastD ""))) :=
  ⟨by decide, C6_extract_group_id.1 "08793--A-L" "MEDICINE" (by decide)⟩

/-- C10: both grouping operations place an event whose `group_id` is the
literal string `common` into the same reserved `common` bucket as events
with no (or an empty) group identifier — the `common` bucket is exactly the
events whose grouping key is `common` — and `extract_group_id` can indeed
produce the identifier `common` from a raw code ending in `--common`;
`Timetable.split_by_group` groups identically to `group_events_by_group`. -/
theorem C10_common_bucket_collision :
    (∀ events : List TimetableEvent,
      bucketContents (group_events_by_group events) "common" =
        events.filter (fun e => groupKey e == "common")) ∧
    (∀ e : TimetableEvent,
      groupKey { e with group_id := some "common" } = "common" ∧
      groupKey { e with group_id := none } = "common") ∧
    (∀ t : Timetable, t.split_by_group = group_events_by_group t.events) ∧
    extract_group_id "12345--common" "PHYSICS" = some "common" := by
  refine ⟨?_, fun e => ⟨rfl, rfl⟩, ?_, by decide⟩
  · intro events
    have h := bucketContents_groupFold events [] "common"
    simpa [bucketContents, assocGet] using h
  · intro t
    unfold Timetable.split_by_group group_events_by_group
    congr 1
    funext result event
    unfold groupKey
    cases event.group_id with
    | none => rfl
    | some g => by_cases hg : g ≠ "" <;> simp [hg]

/-- C7: for every collection, the unfiltered flattening is exactly the
concatenation of every stored curriculum's event list in year-then-curriculum
order (so it reproduces every stored event exactly once), its length is the
sum of the per-curriculum lengths, and `__len__` returns that same total. -/
theorem C7_flattening_partition {α : Type} (c : TimetableCollection α) :
    c.get_all_events none none =
      (c.years.map
        (fun p => (p.2.curricula.map (fun q => q.2.events)).flatten)).flatten ∧
    (c.get_all_events none none).length =
      (c.years.map
        (fun p => (p.2.curricula.map (fun q => q.2.events.length)).sum)).sum ∧
    c.pyLen = (c.years.map
        (fun p => (p.2.curricula.map (fun q => q.2.events.length)).sum)).sum := by
  have hflat : c.get_all_events none none =
      (c.years.map
        (fun p => (p.2.curricula.map (fun q => q.2.events)).flatten)).flatten := by
    show c.years.foldr (fun p acc => p.2.get_all_events ++ acc) [] = _
    rw [foldr_append_eq_flatten_map]
    congr 1
    apply List.map_congr_left
    intro p _
    exact foldr_append_eq_flatten_map (fun q => q.2.events) p.2.curricula
  have hlen : (c.get_all_events none none).length =
      (c.years.map
        (fun p => (p.2.curricula.map (fun q => q.2.events.length)).sum)).sum := by
    rw [hflat]
    rw [List.length_flatten]
    congr 1
    rw [List.map_map]
    apply List.map_congr_left
    intro p _
    show ((p.2.curricula.map (fun q => q.2.events)).flatten).length = _
    rw [List.length_flatten, List.map_map]
    rfl
  exact ⟨hflat, hlen, hlen⟩

/-- C3 counterexample: a collection assembled through
`add_curriculum_timetable` from two per-curriculum sorted timetables whose
whole-collection query scope is *not* in non-decreasing start order: the
curriculum inserted first holds the later event. -/
theorem C3_counterexample :
    unsortedScopeCollection.get_all_events none none = [laterEvent, earlierEvent] ∧
    ¬ List.Pairwise startLe (unsortedScopeCollection.get_all_events none none) ∧
    List.Pairwise startLe ctLater.events ∧
    List.Pairwise startLe ctEarlier.events ∧
    unsortedScopeCollection.get_all_events (some 1) none =
      [laterEvent, earlierEvent] ∧
    ¬ List.Pairwise startLe (unsortedScopeCollection.get_all_events (some 1) none) := by
  exact ⟨by decide, by decide, by decide, by decide, by decide, by decide⟩

/-- C3 amended: events decoded by `parse_events` are sorted by start time,
and the single year-and-curriculum query scope returns the stored curriculum
event list, which is sorted whenever every stored curriculum list is sorted;
the multi-curriculum scopes (whole collection, single year) only concatenate
the per-curriculum lists and need not be globally sorted
(`C3_counterexample`). -/
theorem C3_amended :
    (∀ (rs : List RawEvent) (evs : List TimetableEvent) (h : String),
      parse_events rs = Except.ok (evs, h) → List.Pairwise startLe evs) ∧
    (∀ (c : TimetableCollection TimetableEvent) (y : Int) (code : String),
      (∀ p ∈ c.years, ∀ q ∈ p.2.curricula, List.Pairwise startLe q.2.events) →
      List.Pairwise startLe (c.get_all_events (some y) (some code))) := by
  constructor
  · intro rs evs h hp
    simp only [parse_events] at hp
    cases hr : parseAllEvents rs with
    | error e => rw [hr] at hp; exact absurd hp (by simp)
    | ok l =>
      rw [hr] at hp
      injection hp with hpair
      injection hpair with h1 h2
      rw [← h1]
      exact List.sorted_insertionSort startLe l
  · intro c y code hsorted
    show List.Pairwise startLe (c.get_all_events (some y) (some code))
    simp only [TimetableCollection.get_all_events]
    cases hc : c.get_curriculum y code with
    | none => exact List.Pairwise.nil
    | some ct =>
      simp only [TimetableCollection.get_curriculum] at hc
      cases hy : c.get_year y with
      | none => rw [hy] at hc; cases hc
      | some yt =>
        rw [hy] at hc
        have hyin : (y, yt) ∈ c.years := assocGet_mem hy
        have hcin : (code, ct) ∈ yt.curricula :=
          assocGet_mem (by simpa [AcademicYearTimetable.get_curriculum] using hc)
        exact hsorted (y, yt) hyin (code, ct) hcin

/-- C3 amended witness: the sorted-scope statement applied to the concrete
two-curriculum collection, and the parser-sortedness statement applied to a
concrete batch. -/
theorem C3_amended_witness :
    (∀ p ∈ unsortedScopeCollection.years, ∀ q ∈ p.2.curricula,
      List.Pairwise startLe q.2.events) ∧
    List.Pairwise startLe
      (unsortedScopeCollection.get_all_events (some 1) (some "A")) ∧
    parse_events [] = Except.ok ([], "") ∧
    List.Pairwise startLe ([] : List TimetableEvent) :=
  ⟨by decide, C3_amended.2 unsortedScopeCollection 1 "A" (by decide),
   by rfl, C3_amended.1 [] [] "" (by rfl)⟩

/-- C2: when every candidate endpoint attempt fails (transport error, parse
error, or invalid payload shape), `fetch_timetable` returns — without
raising — the timetable with no events, `has_timetable = false`,
`fetch_successful = false` and no endpoint recorded, and
`get_curriculum_timetable` returns a curriculum timetable with empty events;
the only call-boundary exception either method raises is the fail-fast
`ValueError` on an empty `course_site_url`. -/
theorem C2_all_endpoints_fail (env : Env) (url : String) (cid : Int)
    (ctitle : String) (year : Int) (ext : Bool) (ref : Option DateTime)
    (now : DateTime) (cur : Curriculum)
    (hurl : url ≠ "")
    (hfail : ∀ ep ∈ TIMETABLE_ENDPOINTS,
      fetchAttempt env url ep year (get_api_date_range ref none ext now).1
        (get_api_date_range ref none ext now).2 none = none)
    (hfailc : ∀ ep ∈ TIMETABLE_ENDPOINTS,
      fetchAttempt env url ep year (get_api_date_range ref none ext now).1
        (get_api_date_range ref none ext now).2 (some cur) = none) :
    fetch_timetable env url cid ctitle year ext ref now =
      Except.ok
        { course_id := cid
          course_title := ctitle
          academic_year := year
          start_date :=
            (fromisoformat (get_api_date_range ref none ext now).1).getD ⟨1, 1, 1, 0, 0, 0⟩
          end_date :=
            (fromisoformat (get_api_date_range ref none ext now).2).getD ⟨1, 1, 1, 0, 0, 0⟩
          events := []
          has_timetable := false
          fetch_successful := false
          endpoint_used := none } ∧
    get_curriculum_timetable env url cur year ext ref now =
      Except.ok { curriculum := cur, events := [] } ∧
    fetch_timetable env "" cid ctitle year ext ref now = Except.error .valueError ∧
    get_curriculum_timetable env "" cur year ext ref now = Except.error .valueError := by
  have h1 := hfail "/orario-lezioni/@@orario_reale_json" (by simp [TIMETABLE_ENDPOINTS])
  have h2 := hfail "/timetable/@@orario_reale_json" (by simp [TIMETABLE_ENDPOINTS])
  have h1c := hfailc "/orario-lezioni/@@orario_reale_json" (by simp [TIMETABLE_ENDPOINTS])
  have h2c := hfailc "/timetable/@@orario_reale_json" (by simp [TIMETABLE_ENDPOINTS])
  refine ⟨?_, ?_, rfl, rfl⟩
  · simp only [fetch_timetable, if_neg hurl, fetchTimetableLoop,
      TIMETABLE_ENDPOINTS, List.foldl_cons, List.foldl_nil, h1, h2]
  · simp only [get_curriculum_timetable, if_neg hurl, getCurriculumTimetableLoop,
      TIMETABLE_ENDPOINTS, List.foldl_cons, List.foldl_nil, h1c, h2c]

/-- C2 witness: a transport-failing environment at a concrete course site
on 2026-02-15. -/
theorem C2_all_endpoints_fail_witness :
    (("https://site.example/course" : String) ≠ "") ∧
    get_curriculum_timetable (fun _ _ => EndpointResponse.fail)
        "https://site.example/course"
        { code := "B69-000", label := "Advanced", selected := false } 1 true none
        ⟨2026, 2, 15, 0, 0, 0⟩ =
      Except.ok
        { curriculum := { code := "B69-000", label := "Advanced", selected := false }
          events := [] } :=
  ⟨by decide,
   (C2_all_endpoints_fail (fun _ _ => EndpointResponse.fail)
      "https://site.example/course" 0 "COURSE" 1 true none
      ⟨2026, 2, 15, 0, 0, 0⟩
      { code := "B69-000", label := "Advanced", selected := false }
      (by decide) (by decide) (by decide)).2.1⟩

/-- C1: contrary to the claim, the fallback fetch cannot succeed: with the
first endpoint answering an invalid payload and the second a valid (empty)
array, `fetch_timetable` still returns the unsuccessful empty timetable with
no endpoint recorded, because the un-unpacked `(events, hash)` pair reaches
`Timetable.__post_init__`, whose tuple `sort` raises `AttributeError`,
which the loop swallows as an endpoint failure.  The conjuncts exhibit the
scenario: first payload invalid, second valid, the second attempt does
decode, and the construction step fails. -/
theorem C1_fallback_fetch_cannot_succeed :
    validate_response Payload.notArray = false ∧
    validate_response (Payload.arr []) = true ∧
    c1Env "https://site.example/course/orario-lezioni/@@orario_reale_json"
        { anno := 1, curricula := "", start := "2024-09-01", end_ := "2027-07-31" } =
      EndpointResponse.ok Payload.notArray ∧
    fetchAttempt c1Env "https://site.example/course"
        "/timetable/@@orario_reale_json" 1 "2024-09-01" "2027-07-31" none =
      some ([], "") ∧
    timetablePostInit (PyEvents.tuple [] "") = Except.error .attributeError ∧
    fetch_timetable c1Env "https://site.example/course" 10 "COURSE" 1 true none
        ⟨2026, 2, 15, 0, 0, 0⟩ =
      Except.ok
        { course_id := 10
          course_title := "COURSE"
          academic_year := 1
          start_date := ⟨2024, 9, 1, 0, 0, 0⟩
          end_date := ⟨2027, 7, 31, 0, 0, 0⟩
          events := []
          has_timetable := false
          fetch_successful := false
          endpoint_used := none } :=
  ⟨rfl, rfl, rfl, rfl, rfl, rfl⟩

theorem gctLoop_curriculum (env : Env) (url : String) (cur : Curriculum)
    (year : Int) (ext : Bool) (ref : Option DateTime) (now : DateTime) :
    (getCurriculumTimetableLoop env url cur year ext ref now).curriculum = cur := by
  unfold getCurriculumTimetableLoop
  simp only [TIMETABLE_ENDPOINTS, List.foldl_cons, List.foldl_nil]
  cases fetchAttempt env url "/orario-lezioni/@@orario_reale_json" year
      (get_api_date_range ref none ext now).1
      (get_api_date_range ref none ext now).2 (some cur) <;>
    cases fetchAttempt env url "/timetable/@@orario_reale_json" year
        (get_api_date_range ref none ext now).1
        (get_api_date_range ref none ext now).2 (some cur) <;>
    rfl

/-- C4: for every course site, fetching years `[1, 2]` with two curricula of
distinct codes yields a collection with exactly the two years, each holding
exactly two curricula, whose total event count equals the sum of the event
counts of the four per-curriculum fetch results. -/
theorem C4_cross_product (env : Env) (url : String) (curA curB : Curriculum)
    (ext : Bool) (ref : Option DateTime) (now : DateTime)
    (hurl : url ≠ "") (hcode : curA.code ≠ curB.code) :
    ∃ coll : TimetableCollection PyObj,
      get_timetables env url [curA, curB] [1, 2] ext ref now = Except.ok coll ∧
      coll.years.map Prod.fst = [1, 2] ∧
      (∀ p ∈ coll.years, p.2.curricula.length = 2) ∧
      coll.pyLen =
        (getCurriculumTimetableLoop env url curA 1 ext ref now).events.length +
          (getCurriculumTimetableLoop env url curB 1 ext ref now).events.length +
          (getCurriculumTimetableLoop env url curA 2 ext ref now).events.length +
          (getCurriculumTimetableLoop env url curB 2 ext ref now).events.length := by
  have hA1 := gctLoop_curriculum env url curA 1 ext ref now
  have hB1 := gctLoop_curriculum env url curB 1 ext ref now
  have hA2 := gctLoop_curriculum env url curA 2 ext ref now
  have hB2 := gctLoop_curriculum env url curB 2 ext ref now
  have hfold : ∀ r1 r2 r3 r4 : CurriculumTimetable PyObj,
      r1.curriculum = curA → r2.curriculum = curB → r3.curriculum = curA →
      r4.curriculum = curB →
      (([((1 : Int), curA), ((1 : Int), curB), ((2 : Int), curA),
          ((2 : Int), curB)].zip [r1, r2, r3, r4]).foldl
        (fun (collection : TimetableCollection PyObj) p =>
          collection.add_curriculum_timetable p.1.1 p.2)
        { years := [] }) =
      { years :=
          [(1, { year := 1, curricula := [(curA.code, r1), (curB.code, r2)] }),
           (2, { year := 2, curricula := [(curA.code, r3), (curB.code, r4)] })] } := by
    intro r1 r2 r3 r4 h1 h2 h3 h4
    simp [TimetableCollection.add_curriculum_timetable,
      AcademicYearTimetable.add_curriculum_timetable, assocGet, assocSet,
      assocModify, h1, h2, h3, h4, hcode]
  have hmapM : List.mapM
      (fun yc : Int × Curriculum =>
        get_curriculum_timetable env url yc.2 yc.1 ext ref now)
      [(1, curA), (1, curB), (2, curA), (2, curB)] =
      Except.ok
        [getCurriculumTimetableLoop env url curA 1 ext ref now,
         getCurriculumTimetableLoop env url curB 1 ext ref now,
         getCurriculumTimetableLoop env url curA 2 ext ref now,
         getCurriculumTimetableLoop env url curB 2 ext ref now] := by
    simp only [get_curriculum_timetable, if_neg hurl]
    rfl
  refine ⟨{ years :=
      [(1, { year := 1, curricula :=
        [(curA.code, getCurriculumTimetableLoop env url curA 1 ext ref now),
         (curB.code, getCurriculumTimetableLoop env url curB 1 ext ref now)] }),
       (2, { year := 2, curricula :=
        [(curA.code, getCurriculumTimetableLoop env url curA 2 ext ref now),
         (curB.code, getCurriculumTimetableLoop env url curB 2 ext ref now)] })] },
    ?_, rfl, ?_, ?_⟩
  · show (do
      let results ← List.mapM
        (fun yc : Int × Curriculum =>
          get_curriculum_timetable env url yc.2 yc.1 ext ref now)
        [(1, curA), (1, curB), (2, curA), (2, curB)]
      Except.ok
        (([((1 : Int), curA), ((1 : Int), curB), ((2 : Int), curA),
            ((2 : Int), curB)].zip results).foldl
          (fun (collection : TimetableCollection PyObj)
              (p : (Int × Curriculum) × CurriculumTimetable PyObj) =>
            collection.add_curriculum_timetable p.1.1 p.2)
          { years := [] })) = _
    rw [hmapM]
    exact congrArg Except.ok (hfold _ _ _ _ hA1 hB1 hA2 hB2)
  · intro p hp
    simp only [List.mem_cons, List.not_mem_nil, or_false] at hp
    rcases hp with h | h <;> subst h <;> rfl
  · simp only [TimetableCollection.pyLen, TimetableCollection.get_all_events,
      AcademicYearTimetable.get_all_events, List.foldr_cons, List.foldr_nil,
      List.length_append, List.length_nil]
    omega

/-- C4 witness: the scenario at a concrete course site, two concrete
curricula with distinct codes and a transport-failing environment. -/
theorem C4_cross_product_witness :
    (("https://site.example/course" : String) ≠ "") ∧
    (("A-000" : String) ≠ "B-000") ∧
    (∃ coll : TimetableCollection PyObj,
      get_timetables (fun _ _ => EndpointResponse.fail)
          "https://site.example/course"
          [{ code := "A-000", label := "Track A", selected := false },
           { code := "B-000", label := "Track B", selected := false }]
          [1, 2] true none ⟨2026, 2, 15, 0, 0, 0⟩ = Except.ok coll ∧
      coll.years.map Prod.fst = [1, 2] ∧
      (∀ p ∈ coll.years, p.2.curricula.length = 2) ∧
      coll.pyLen =
        (getCurriculumTimetableLoop (fun _ _ => EndpointResponse.fail)
          "https://site.example/course"
          { code := "A-000", label := "Track A", selected := false } 1 true none
          ⟨2026, 2, 15, 0, 0, 0⟩).events.length +
        (getCurriculumTimetableLoop (fun _ _ => EndpointResponse.fail)
          "https://site.example/course"
          { code := "B-000", label := "Track B", selected := false } 1 true none
          ⟨2026, 2, 15, 0, 0, 0⟩).events.length +
        (getCurriculumTimetableLoop (fun _ _ => EndpointResponse.fail)
          "https://site.example/course"
          { code := "A-000", label := "Track A", selected := false } 2 true none
          ⟨2026, 2, 15, 0, 0, 0⟩).events.length +
        (getCurriculumTimetableLoop (fun _ _ => EndpointResponse.fail)
          "https://site.example/course"
          { code := "B-000", label := "Track B", selected := false } 2 true none
          ⟨2026, 2, 15, 0, 0, 0⟩).events.length) :=
  ⟨by decide, by decide,
   C4_cross_product (fun _ _ => EndpointResponse.fail)
     "https://site.example/course"
     { code := "A-000", label := "Track A", selected := false }
     { code := "B-000", label := "Track B", selected := false }
     true none ⟨2026, 2, 15, 0, 0, 0⟩ (by decide) (by decide)⟩

/-- C8: `parse_events` is deterministic; the content hash is a function of
the per-record extracted fields alone (title, start, end, professor, module
code, teaching period, remote flag) in arrival order, so two batches with
equal extracted fields hash identically; re-parsing the same records with
any per-record JSON key order yields the identical result; and a non-empty
batch's hash has exactly 16 characters. -/
theorem C8_content_hash_determinism :
    (∀ rs : List RawEvent, parse_events rs = parse_events rs) ∧
    (∀ (rs1 rs2 : List RawEvent) (l1 l2 : List TimetableEvent),
      parseAllEvents rs1 = Except.ok l1 → parseAllEvents rs2 = Except.ok l2 →
      l1.map hashEntryOf = l2.map hashEntryOf →
      parse_events rs1 =
        Except.ok (sortEventsByStart l1, contentHashOf (l1.map hashEntryOf)) ∧
      contentHashOf (l1.map hashEntryOf) = contentHashOf (l2.map hashEntryOf)) ∧
    (∀ os1 os2 : List RawEventObj,
      List.Forall₂ keyOrderVariant os1 os2 →
      parse_events (os1.map rawEventOfObj) = parse_events (os2.map rawEventOfObj)) ∧
    (∀ hash_input : List HashEntry, hash_input ≠ [] →
      (contentHashOf hash_input).length = 16) := by
  refine ⟨fun _ => rfl, ?_, ?_, fun _ h => contentHashOf_length h⟩
  · intro rs1 rs2 l1 l2 h1 h2 hmap
    constructor
    · simp only [parse_events, h1]
    · exact congrArg contentHashOf hmap
  · intro os1 os2 hf
    have hmaps : os1.map rawEventOfObj = os2.map rawEventOfObj := by
      induction hf with
      | nil => rfl
      | cons h _ ih => simp only [List.map_cons, rawEventOfObj_keyOrder h, ih]
    rw [hmaps]

/-- C8 witness: a one-record batch given in two key orders (permuted, unique
keys) is parsed identically; the empty batch instantiates the
field-extensionality statement; and a concrete one-entry `hash_input` has a
16-character hash. -/
theorem C8_content_hash_determinism_witness :
    List.Forall₂ keyOrderVariant
      [[("title", RawVal.str "PROG"), ("start", RawVal.str "2026-02-15T10:00:00"),
        ("end", RawVal.str "2026-02-15T12:00:00")]]
      [[("end", RawVal.str "2026-02-15T12:00:00"), ("title", RawVal.str "PROG"),
        ("start", RawVal.str "2026-02-15T10:00:00")]] ∧
    parse_events
        ([[("title", RawVal.str "PROG"), ("start", RawVal.str "2026-02-15T10:00:00"),
          ("end", RawVal.str "2026-02-15T12:00:00")]].map rawEventOfObj) =
      parse_events
        ([[("end", RawVal.str "2026-02-15T12:00:00"), ("title", RawVal.str "PROG"),
          ("start", RawVal.str "2026-02-15T10:00:00")]].map rawEventOfObj) ∧
    parse_events [] = Except.ok (sortEventsByStart [], contentHashOf []) ∧
    (contentHashOf
        [{ title := "PROG", start := "2026-02-15T10:00:00",
           end_ := "2026-02-15T12:00:00", professor := none, module_code := none,
           teaching_period := none, is_remote := false }]).length = 16 :=
  ⟨List.Forall₂.cons ⟨by decide, by decide⟩ List.Forall₂.nil,
   C8_content_hash_determinism.2.2.1 _ _
     (List.Forall₂.cons ⟨by decide, by decide⟩ List.Forall₂.nil),
   (C8_content_hash_determinism.2.1 [] [] [] [] rfl rfl rfl).1,
   C8_content_hash_determinism.2.2.2 _ (by decide)⟩

end UniboToolkit
